import Mathlib

/-!
Verification development for the pynoc repository (src/pynoc/cisco.py and
src/pynoc/apc.py).  Python text values are embedded as `List Char`; the
Python string primitives used by the source (splitlines, strip, split,
find, replace, startswith, the `in` operator, int()) are modelled below.
Fallible Python code (IndexError / ValueError on list indexing and int
parsing) is embedded with `Except PyErr`.
-/

/-- Errors that the embedded Python code can raise. -/
inductive PyErr
  | indexError
  | valueError
  | attributeError
deriving DecidableEq

instance {e a : Type} [DecidableEq e] [DecidableEq a] : DecidableEq (Except e a) := fun x y =>
  match x, y with
  | .error u, .error v =>
    if h : u = v then .isTrue (by rw [h]) else .isFalse (by intro hh; cases hh; exact h rfl)
  | .error _, .ok _ => .isFalse (by intro hh; cases hh)
  | .ok _, .error _ => .isFalse (by intro hh; cases hh)
  | .ok u, .ok v =>
    if h : u = v then .isTrue (by rw [h]) else .isFalse (by intro hh; cases hh; exact h rfl)

/-- Python whitespace test for the characters occurring in device output
(`str.strip` / `str.split` with no argument). -/
def pyIsSpace (c : Char) : Bool :=
  c = ' ' || c = '\t' || c = '\r' || c = '\n'

/-- Split a character list at every character satisfying `p`, keeping empty
pieces (the shape of Python `str.split(sep)` for a one-character `sep`).
Always returns a non-empty list of pieces. -/
def splitOnPred (p : Char → Bool) : List Char → List (List Char)
  | [] => [[]]
  | c :: cs =>
    match splitOnPred p cs with
    | [] => [[]]
    | h :: t => if p c then [] :: h :: t else (c :: h) :: t

/-- Python `str.splitlines()` restricted to `'\n'` separators (the only line
separator occurring in the modelled device output): like splitting on
`'\n'`, except that the empty string yields no lines and a trailing
newline does not produce a trailing empty line. -/
def pySplitlines (s : List Char) : List (List Char) :=
  if s = [] then []
  else if s.getLast? = some '\n' then (splitOnPred (fun c => c = '\n') s).dropLast
  else splitOnPred (fun c => c = '\n') s

/-- Python `str.strip()`: remove leading and trailing whitespace. -/
def pyStrip (s : List Char) : List Char :=
  ((s.dropWhile pyIsSpace).reverse.dropWhile pyIsSpace).reverse

/-- Python `str.split()` with no argument: split on whitespace runs and drop
the empty pieces. -/
def pySplit (s : List Char) : List (List Char) :=
  (splitOnPred pyIsSpace s).filter (fun w => w ≠ [])

/-- Python's substring operator `sub in s`. -/
def pyInStr (sub : List Char) : List Char → Bool
  | [] => sub.isPrefixOf []
  | c :: cs => sub.isPrefixOf (c :: cs) || pyInStr sub cs

/-- Work loop of `pyReplace` with explicit fuel (the fuel starts at the
length of the string and only decreases, so the recursion is structural
and the function reduces by evaluation). -/
def pyReplaceGo (pat repl : List Char) : Nat → List Char → List Char
  | _, [] => []
  | 0, s => s
  | fuel + 1, c :: cs =>
    if pat ≠ [] ∧ pat.isPrefixOf (c :: cs) then
      repl ++ pyReplaceGo pat repl fuel ((c :: cs).drop pat.length)
    else
      c :: pyReplaceGo pat repl fuel cs

/-- Python `str.replace(pat, repl)` for a non-empty `pat`: replace all
non-overlapping occurrences, scanning left to right.  (The source only
ever calls `replace` with the non-empty literals `','` and the long-form
interface prefixes.) -/
def pyReplace (pat repl s : List Char) : List Char :=
  pyReplaceGo pat repl s.length s

/-- Accumulate the value of a digit string; `none` as soon as a non-digit is
met. -/
def digitsValGo : Nat → List Char → Option Nat
  | acc, [] => some acc
  | acc, c :: cs =>
    if '0' ≤ c ∧ c ≤ '9' then digitsValGo (acc * 10 + (c.toNat - '0'.toNat)) cs
    else none

/-- Python `int(s)` on a whitespace-free token: an optional sign followed by
at least one decimal digit; anything else raises ValueError (`none` here). -/
def pyInt : List Char → Option Int
  | [] => none
  | '-' :: rest =>
    match rest with
    | [] => none
    | _ => (digitsValGo 0 rest).map (fun n => -(n : Int))
  | '+' :: rest =>
    match rest with
    | [] => none
    | _ => (digitsValGo 0 rest).map (fun n => (n : Int))
  | s => (digitsValGo 0 s).map (fun n => (n : Int))

/-- Lexicographic strict order on character lists by code point, Python's
`<` on strings. -/
def strLt : List Char → List Char → Bool
  | [], [] => false
  | [], _ :: _ => true
  | _ :: _, [] => false
  | a :: as, b :: bs => if a < b then true else if b < a then false else strLt as bs

/-- Insert `x` into a sorted list, before the first element not strictly
below it; used by `insertionSort`. -/
def insertLt {α : Type} (lt : α → α → Bool) (x : α) : List α → List α
  | [] => [x]
  | y :: ys => if lt y x then y :: insertLt lt x ys else x :: y :: ys

/-- Stable sort with respect to the strict order `lt`; Python's `sorted`
is a stable sort, and a stable sort is uniquely determined by the order,
so this is a faithful model of `sorted(..., key=...)`. -/
def insertionSort {α : Type} (lt : α → α → Bool) : List α → List α
  | [] => []
  | x :: xs => insertLt lt x (insertionSort lt xs)

theorem mem_insertLt {α : Type} (lt : α → α → Bool) (x a : α) (l : List α) :
    a ∈ insertLt lt x l ↔ a = x ∨ a ∈ l := by
  induction l with
  | nil => simp [insertLt]
  | cons y ys ih =>
    by_cases h : lt y x = true
    · simp [insertLt, h, ih]
      tauto
    · simp [insertLt, h]

theorem mem_insertionSort {α : Type} (lt : α → α → Bool) (a : α) (l : List α) :
    a ∈ insertionSort lt l ↔ a ∈ l := by
  induction l with
  | nil => simp [insertionSort]
  | cons x xs ih => simp [insertionSort, mem_insertLt, ih]

example : pySplitlines "a\n\nb".data = ["a".data, [], "b".data] := by decide
example : pySplitlines "a\n".data = ["a".data] := by decide
example : pyStrip "  ab c  ".data = "ab c".data := by decide
example : pySplit " 701  NET-701  active ".data = ["701".data, "NET-701".data, "active".data] := by decide
example : pyInStr "auto".data "xautoy".data = true := by decide
example : pyInStr "on".data "off".data = false := by decide
example : pyReplace ",".data [] "Gi1/0/1, Gi1/0/2".data = "Gi1/0/1 Gi1/0/2".data := by decide
example : pyInt "701".data = some 701 := by decide
example : pyInt "NET-701".data = none := by decide
example : insertionSort strLt ["b".data, "a".data, "c".data] = ["a".data, "b".data, "c".data] := by decide

/-!
Embedding of `src/pynoc/cisco.py` (`CiscoSwitch`).
-/

/-- `CiscoSwitch.PORT_NOTATION` from the source: the fixed enumeration of
long-form interface-name prefixes and their shorthand.  The keys are kept
in the source's (insertion) order, which is the order Python iterates the
dict in.  (The source attribute name ends in a word this development
cannot use as an identifier, hence the name `PORT_SHORTHANDS`.) -/
def PORT_SHORTHANDS : List (List Char × List Char) :=
  [("fastethernet".data, "Fa".data),
   ("gigabitethernet".data, "Gi".data),
   ("tengigabitethernet".data, "Ten".data)]

def CMD_ENABLE : List Char := "enable".data
def CMD_TERMINAL_LENGTH : List Char := "terminal length 0".data
def CMD_IPDT : List Char := "sh ip device track all".data
def CMD_MAC_ADDRESS_TABLE : List Char := "sh mac address-table".data
def CMD_CONFIGURE : List Char := "configure terminal".data
def CMD_POWER_OFF : List Char := "power inline never".data
def CMD_POWER_ON : List Char := "power inline auto".data
def CMD_POWER_SHOW : List Char := "sh power inline".data
def CMD_VLAN_MODE_ACCESS : List Char := "switchport mode access".data
def CMD_VLAN_SHOW : List Char := "sh vlan".data
def CMD_END : List Char := "end".data

/-- Inner for-loop of `CiscoSwitch._shorthand_port_notation`: find the first
table entry whose key is a prefix of the lowercased port name and return
the replaced string (`lower.replace(key, value)`); `none` when no entry
matches (in the source this leaves `output` untouched). -/
def shorthandLoop (lower : List Char) : List (List Char × List Char) → Option (List Char)
  | [] => none
  | item :: rest =>
    if item.1.isPrefixOf lower then some (pyReplace item.1 item.2 lower)
    else shorthandLoop lower rest

/-- `CiscoSwitch._shorthand_port_notation`.  A Python argument of `None` or
`""` is falsy and makes the method return `None`; both are modelled as the
`none` result.  (Source name ends in a word unusable as an identifier
here.) -/
def shorthand_port (port : Option (List Char)) : Option (List Char) :=
  match port with
  | none => none
  | some s =>
    if s = [] then none
    else
      if PORT_SHORTHANDS.any (fun item => item.1.isPrefixOf (s.map Char.toLower)) then
        match shorthandLoop (s.map Char.toLower) PORT_SHORTHANDS with
        | some out => some out
        | none => some s
      else some s

/-- The common first step of every parser in the source:
`[line.strip() for line in output.splitlines()]` followed by
`lines.append('')`. -/
def processedLines (output : List Char) : List (List Char) :=
  (pySplitlines output).map pyStrip ++ [[]]

/-- Python `port in ports` when `port` may be `None` (comparing `None`
against a string is simply `False`). -/
def portMem (port : Option (List Char)) (ports : List (List Char)) : Bool :=
  match port with
  | none => false
  | some p => ports.contains p

/-- Python truthiness of an optional string (`None` and `""` are falsy). -/
def pyTruthy : Option (List Char) → Bool
  | none => false
  | some s => s ≠ []

/-- One entry of the parsed MAC address table.  The source stores
`EUI(values[1], dialect=mac_unix_expanded)` for the MAC address; the EUI
conversion belongs to the external netaddr collaborator and is kept
abstract here as the raw token. -/
structure MacEntry where
  mac : List Char
  intf : List Char
deriving DecidableEq

/-- One entry of the parsed IP-device-tracking table (same remark about the
EUI field as for `MacEntry`). -/
structure IpdtEntry where
  ip : List Char
  mac : List Char
  intf : List Char
deriving DecidableEq

/-- Loop of `CiscoSwitch._parse_mac_address_table_output`.  The `ignore`
parameter is the local variable `ignore_port`, which the source re-assigns
to `self._shorthand_port_notation(ignore_port)` on every iteration that
reaches that statement, so it is threaded through the recursion.
A kept line with fewer than four whitespace-separated fields raises
IndexError at `values[3]`. -/
def parseMacLoop (ignore : Option (List Char)) : List (List Char) → Except PyErr (List MacEntry)
  | [] => .ok []
  | line :: rest =>
    if line.contains '.' = false then parseMacLoop ignore rest
    else
      match pySplit line with
      | _ :: v1 :: _ :: v3 :: _ =>
        if (PORT_SHORTHANDS.map Prod.snd).all
            (fun pt => (pt.map Char.toLower).isPrefixOf (v3.map Char.toLower) = false) then
          parseMacLoop ignore rest
        else
          if pyTruthy (shorthand_port ignore) && (shorthand_port ignore == some v3) then
            parseMacLoop (shorthand_port ignore) rest
          else
            match parseMacLoop (shorthand_port ignore) rest with
            | .error e => .error e
            | .ok l => .ok ({ mac := v1, intf := v3 } :: l)
      | _ => .error .indexError

/-- `CiscoSwitch._parse_mac_address_table_output`: filter and tokenize the
lines, then `sorted(lookup, key=lambda k: k['interface'])`. -/
def parse_mac_address_table_output (output : List Char) (ignore_port : Option (List Char)) :
    Except PyErr (List MacEntry) :=
  match parseMacLoop ignore_port (processedLines output) with
  | .error e => .error e
  | .ok l => .ok (insertionSort (fun a b => strLt a.intf b.intf) l)

/-- Loop of `CiscoSwitch._parse_ipdt_output`.  A kept line with fewer than
five fields raises IndexError at `values[4]`; a row is skipped only when
its fifth field is exactly `INACTIVE`. -/
def parseIpdtLoop : List (List Char) → Except PyErr (List IpdtEntry)
  | [] => .ok []
  | line :: rest =>
    if line.contains '.' = false then parseIpdtLoop rest
    else
      match pySplit line with
      | v0 :: v1 :: _ :: v3 :: v4 :: _ =>
        if v4 = "INACTIVE".data then parseIpdtLoop rest
        else
          match parseIpdtLoop rest with
          | .error e => .error e
          | .ok l => .ok ({ ip := v0, mac := v1, intf := v3 } :: l)
      | _ => .error .indexError

/-- `CiscoSwitch._parse_ipdt_output`. -/
def parse_ipdt_output (output : List Char) : Except PyErr (List IpdtEntry) :=
  match parseIpdtLoop (processedLines output) with
  | .error e => .error e
  | .ok l => .ok (insertionSort (fun a b => strLt a.intf b.intf) l)

/-- Loop of `CiscoSwitch._verify_poe_status` over the pre-processed lines:
the first row whose first field equals `port` decides the result
(`state in values[1]`, `values[1]`) and breaks; falling off the end
returns the initial `(False, "unknown")`. -/
def verifyPoeLoop (port : Option (List Char)) (state : List Char) :
    List (List Char) → Except PyErr (Bool × List Char)
  | [] => .ok (false, "unknown".data)
  | line :: rest =>
    if line.contains '/' = false then verifyPoeLoop port state rest
    else
      match pySplit line with
      | [] => .error .indexError
      | v0 :: vrest =>
        if port = some v0 then
          match vrest with
          | [] => .error .indexError
          | v1 :: _ => .ok (pyInStr state v1, v1)
        else verifyPoeLoop port state rest

/-- `CiscoSwitch._verify_poe_status`: an expected state containing `"on"` is
first rewritten to `"auto"`. -/
def verify_poe_status (output : List Char) (port : Option (List Char)) (state : List Char) :
    Except PyErr (Bool × List Char) :=
  let st := if pyInStr "on".data state then "auto".data else state
  verifyPoeLoop port st (processedLines output)

/-- Scan state of `CiscoSwitch._verify_vlan_status`:
`(matches, previous_vlan, actual_vlan)`. -/
structure VlanScanState where
  matched : Bool
  previousVlan : Int
  actualVlan : Int
deriving DecidableEq

/-- The `if port in ports: ...` tail of the `_verify_vlan_status` loop body
(run after `previous_vlan` has been updated on a carrier line). -/
def vlanPortsCheck (port : Option (List Char)) (vlanE : Int) (st : VlanScanState)
    (ports : List (List Char)) : VlanScanState :=
  if portMem port ports then
    { matched := if st.previousVlan = vlanE then true else st.matched,
      previousVlan := st.previousVlan,
      actualVlan := st.previousVlan }
  else st

/-- One iteration of the `_verify_vlan_status` loop: strip commas, skip
lines without `/`, treat lines containing the token `active` as carrier
lines (`int(values[0])` may raise ValueError), all others as continuation
lines. -/
def vlanLineStep (port : Option (List Char)) (vlanE : Int) (st : VlanScanState)
    (rawLine : List Char) : Except PyErr VlanScanState :=
  let line := pyReplace ",".data [] rawLine
  if line.contains '/' = false then .ok st
  else
    let values := pySplit line
    if "active".data ∈ values then
      match values with
      | [] => .error .indexError
      | v0 :: _ =>
        match pyInt v0 with
        | none => .error .valueError
        | some n => .ok (vlanPortsCheck port vlanE { st with previousVlan := n } (values.drop 3))
    else
      .ok (vlanPortsCheck port vlanE st values)

/-- The while-loop of `_verify_vlan_status`. -/
def vlanScanLoop (port : Option (List Char)) (vlanE : Int) :
    List (List Char) → VlanScanState → Except PyErr VlanScanState
  | [], st => .ok st
  | line :: rest, st =>
    match vlanLineStep port vlanE st line with
    | .error e => .error e
    | .ok st2 => vlanScanLoop port vlanE rest st2

/-- `CiscoSwitch._verify_vlan_status`. -/
def verify_vlan_status (output : List Char) (port : Option (List Char)) (vlanE : Int) :
    Except PyErr (Bool × Int) :=
  match vlanScanLoop port vlanE (processedLines output) ⟨false, -1, -1⟩ with
  | .error e => .error e
  | .ok st => .ok (st.matched, st.actualVlan)

/-- The SSH channel held by a connected `CiscoSwitch` (an external paramiko
collaborator).  It is modelled at the boundary: `respond` maps a sent
command to the decoded text the switch answers with, and `remoteAlive`
records whether the remote side of the session is still alive (nothing in
the source ever consults it, which is the point of claim C8). -/
structure ShellConn where
  remoteAlive : Bool
  respond : List Char → List Char

/-- The mutable state of a `CiscoSwitch` object: `_shell` (`none` when
disconnected), `_enable_needed` and `_ready`. -/
structure SwitchState where
  shell : Option ShellConn
  enableNeeded : Bool
  ready : Bool

/-- `CiscoSwitch.connected`: literally `self._shell is not None`. -/
def connected (s : SwitchState) : Bool :=
  s.shell.isSome

/-- Result of an operation: its return value, the commands it sent over the
shell (in order), and the switch state it leaves behind. -/
structure OpResult (α : Type) where
  value : α
  sent : List (List Char)
  state : SwitchState

/-- `CiscoSwitch.enable`: when `self.connected and self._enable_needed`, send
the enable command and the password, set `_ready = True` and call
`set_terminal_length` (which sends its command because `_ready` is now
true); otherwise do nothing.  Note the source never clears
`_enable_needed`. -/
def enable (s : SwitchState) (password : List Char) : OpResult Unit :=
  if connected s && s.enableNeeded then
    { value := (), sent := [CMD_ENABLE, password, CMD_TERMINAL_LENGTH],
      state := { s with ready := true } }
  else
    { value := (), sent := [], state := s }

/-- `'int {0}'.format(port)` — `str.format` renders `None` as `"None"`. -/
def fmt_interface (p : Option (List Char)) : List Char :=
  "int ".data ++ (match p with | none => "None".data | some x => x)

/-- The configuration sequence plus the verification query sent by
`poe_on` / `poe_off` (`power` is `CMD_POWER_ON` or `CMD_POWER_OFF`). -/
def poeCmds (p : Option (List Char)) (power : List Char) : List (List Char) :=
  [CMD_CONFIGURE, fmt_interface p, power, CMD_END, CMD_POWER_SHOW]

/-- `CiscoSwitch.poe_on`.  A bare `return` in Python yields `None`, embedded
as the value `none`; when ready, the method sends its configuration
sequence, re-queries `sh power inline` and returns the `matches` part of
`_verify_poe_status(verify, port, "on")`.  Accessing the shell while
`_shell is None` would raise AttributeError. -/
def poe_on (s : SwitchState) (port : Option (List Char)) :
    Except PyErr (Option Bool × List (List Char)) :=
  if s.ready = false then .ok (none, [])
  else
    match s.shell with
    | none => .error .attributeError
    | some sh =>
      let p := shorthand_port port
      match verify_poe_status (sh.respond CMD_POWER_SHOW) p "on".data with
      | .error e => .error e
      | .ok r => .ok (some r.1, poeCmds p CMD_POWER_ON)

/-- `CiscoSwitch.poe_off` (same shape as `poe_on`, with `power inline never`
and expected state `"off"`). -/
def poe_off (s : SwitchState) (port : Option (List Char)) :
    Except PyErr (Option Bool × List (List Char)) :=
  if s.ready = false then .ok (none, [])
  else
    match s.shell with
    | none => .error .attributeError
    | some sh =>
      let p := shorthand_port port
      match verify_poe_status (sh.respond CMD_POWER_SHOW) p "off".data with
      | .error e => .error e
      | .ok r => .ok (some r.1, poeCmds p CMD_POWER_OFF)

/-- The dynamically-typed return value of `CiscoSwitch.is_poe`: the string
`"unknown"` when not ready, a boolean otherwise. -/
inductive IsPoeRet
  | unknownStr
  | poeBool (b : Bool)
deriving DecidableEq

/-- `CiscoSwitch.is_poe`: when ready, query `sh power inline` and return
`"auto" in poe` for the actual state returned by `_verify_poe_status`. -/
def is_poe (s : SwitchState) (port : Option (List Char)) :
    Except PyErr (IsPoeRet × List (List Char)) :=
  if s.ready = false then .ok (.unknownStr, [])
  else
    match s.shell with
    | none => .error .attributeError
    | some sh =>
      let p := shorthand_port port
      match verify_poe_status (sh.respond CMD_POWER_SHOW) p "unknown".data with
      | .error e => .error e
      | .ok r => .ok (.poeBool (pyInStr "auto".data r.2), [CMD_POWER_SHOW])

/-- `'switchport access vlan {0}'.format(int(vlan))`. -/
def fmt_vlan_set (v : Int) : List Char :=
  "switchport access vlan ".data ++ (toString v).data

/-- `CiscoSwitch.change_vlan`: not ready gives the bare-`return` value
`none`; otherwise send the configuration sequence, re-query `sh vlan`
and return the `matches` part of `_verify_vlan_status`. -/
def change_vlan (s : SwitchState) (port : Option (List Char)) (v : Int) :
    Except PyErr (Option Bool × List (List Char)) :=
  if s.ready = false then .ok (none, [])
  else
    match s.shell with
    | none => .error .attributeError
    | some sh =>
      let p := shorthand_port port
      match verify_vlan_status (sh.respond CMD_VLAN_SHOW) p v with
      | .error e => .error e
      | .ok r =>
        .ok (some r.1,
          [CMD_CONFIGURE, fmt_interface p, CMD_VLAN_MODE_ACCESS, fmt_vlan_set v, CMD_END,
           CMD_VLAN_SHOW])

/-- `CiscoSwitch.vlan`: `-1` when not ready, otherwise the `actual_vlan`
part of `_verify_vlan_status(verify, port, 0)`. -/
def vlan (s : SwitchState) (port : Option (List Char)) :
    Except PyErr (Int × List (List Char)) :=
  if s.ready = false then .ok (-1, [])
  else
    match s.shell with
    | none => .error .attributeError
    | some sh =>
      let p := shorthand_port port
      match verify_vlan_status (sh.respond CMD_VLAN_SHOW) p 0 with
      | .error e => .error e
      | .ok r => .ok (r.2, [CMD_VLAN_SHOW])

/-- `CiscoSwitch.mac_address_table`: `None` when not ready, otherwise the
parsed table. -/
def mac_address_table (s : SwitchState) (ignore_port : Option (List Char)) :
    Except PyErr (Option (List MacEntry) × List (List Char)) :=
  if s.ready = false then .ok (none, [])
  else
    match s.shell with
    | none => .error .attributeError
    | some sh =>
      match parse_mac_address_table_output (sh.respond CMD_MAC_ADDRESS_TABLE) ignore_port with
      | .error e => .error e
      | .ok l => .ok (some l, [CMD_MAC_ADDRESS_TABLE])

/-- `CiscoSwitch.ipdt`: `None` when not ready, otherwise the parsed table. -/
def ipdt (s : SwitchState) :
    Except PyErr (Option (List IpdtEntry) × List (List Char)) :=
  if s.ready = false then .ok (none, [])
  else
    match s.shell with
    | none => .error .attributeError
    | some sh =>
      match parse_ipdt_output (sh.respond CMD_IPDT) with
      | .error e => .error e
      | .ok l => .ok (some l, [CMD_IPDT])

example :
    shorthand_port (some "GigabitEthernet1/0/48".data) = some "Gi1/0/48".data := by decide
example :
    shorthand_port (some "Gi1/0/48".data) = some "Gi1/0/48".data := by decide
example :
    shorthand_port (some "TenGigabitEthernet1/0/1".data) = some "Ten1/0/1".data := by decide
example : shorthand_port (some "FastEthernet1/0/1".data) = some "Fa1/0/1".data := by decide

set_option maxRecDepth 4096

/-- A `sh vlan` output containing the carrier line of the specification's
end-to-end scenario. -/
def vlanSampleOutput : List Char :=
  ("VLAN Name  Status  Ports\n" ++
   "---- ----  ------  -----\n" ++
   "1    default  active  Te1/0/1, Te1/0/2\n" ++
   "701  NET-701  active  Gi1/0/1, Gi1/0/2\n" ++
   "702  NET-702  active  Gi1/0/8\n" ++
   "705  NET-705  active").data

/-- A `sh vlan` output in which `Gi1/0/5` is listed under two different
VLANs (701 first, 702 second). -/
def vlanDualOutput : List Char :=
  ("VLAN Name  Status  Ports\n" ++
   "701  NET-701  active  Gi1/0/5, Gi1/0/6\n" ++
   "702  NET-702  active  Gi1/0/5").data

/-- A `sh power inline` output whose row for `Gi1/0/3` has admin state
`static`, which contains neither `auto` nor `off`. -/
def poeStaticOutput : List Char :=
  ("Interface Admin  Oper\n" ++
   "--------- ------ ----\n" ++
   "Gi1/0/1   auto   off        0.0     n/a n/a 15.4\n" ++
   "Gi1/0/3   static off        0.0     n/a n/a 15.4").data

/-- The IPDT output of the source's own docstring (long-form interface
names, `ACTIVE` state). -/
def ipdtLongOutput : List Char :=
  ("IP Device Tracking = Enabled\n" ++
   "IP Device Tracking Probe Count = 3\n" ++
   "-----------------------------------\n" ++
   "  IP Address     MAC Address   Vlan  Interface              STATE\n" ++
   "-----------------------------------\n" ++
   "192.168.1.12     6cec.eb68.c86f  601  GigabitEthernet1/0/14  ACTIVE\n" ++
   "\n" ++
   "Total number interfaces enabled: 47").data

/-- An IPDT output whose single data row is in state `STALE` (neither
`ACTIVE` nor `INACTIVE`). -/
def ipdtStaleOutput : List Char :=
  ("  IP Address   MAC Address   Vlan  Interface  STATE\n" ++
   "10.0.0.5     aabb.ccdd.eeff  601  Gi1/0/7  STALE").data

/-- A MAC-address-table output, following the source docstring's shape. -/
def macSampleOutput : List Char :=
  ("          Mac Address Table\n" ++
   "-------------------------------------------\n" ++
   "Vlan    Mac Address       Type        Ports\n" ++
   "----    -----------       --------    -----\n" ++
   " All    0100.0ccc.cccc    STATIC      CPU\n" ++
   " 601    000b.7866.5240    DYNAMIC     Gi1/0/48\n" ++
   "Total Mac Addresses for this criterion: 59").data

example : verify_vlan_status vlanSampleOutput (some "Gi1/0/1".data) 701 = .ok (true, 701) := by
  decide
example : verify_vlan_status vlanSampleOutput (some "Gi1/0/1".data) 1 = .ok (false, 701) := by
  decide
example : verify_vlan_status vlanDualOutput (some "Gi1/0/5".data) 701 = .ok (true, 702) := by
  decide
example :
    verify_poe_status poeStaticOutput (some "Gi1/0/3".data) "off".data =
      .ok (false, "static".data) := by decide
example :
    verify_poe_status poeStaticOutput (some "Gi1/0/1".data) "on".data =
      .ok (true, "auto".data) := by decide
example :
    parse_ipdt_output ipdtLongOutput =
      .ok [{ ip := "192.168.1.12".data, mac := "6cec.eb68.c86f".data,
             intf := "GigabitEthernet1/0/14".data }] := by decide
example :
    parse_mac_address_table_output macSampleOutput none =
      .ok [{ mac := "000b.7866.5240".data, intf := "Gi1/0/48".data }] := by decide
example :
    parse_ipdt_output ipdtStaleOutput =
      .ok [{ ip := "10.0.0.5".data, mac := "aabb.ccdd.eeff".data,
             intf := "Gi1/0/7".data }] := by decide

/-!
Embedding of `src/pynoc/apc.py` (`APC`), restricted to the outlet-indexed
operations the claims are about.  SNMP transport interactions are recorded
as events; the device itself is modelled as an oracle that always answers
(transport failures are the external collaborator's RuntimeError path,
which none of the claims concern).
-/

/-- One SNMP transport interaction (`getCmd` / `setCmd` on an OID). -/
inductive SnmpEvent
  | getOid (oid : List Int)
  | setOid (oid : List Int) (value : List Char)
deriving DecidableEq

def BASE_OID : List Int := [1, 3, 6, 1, 4, 1, 318, 1, 1, 26]
def Q_OUTLET_NAME : List Int := BASE_OID ++ [9, 2, 3, 1, 3]
def Q_OUTLET_STATUS : List Int := BASE_OID ++ [9, 2, 3, 1, 5]
def Q_OUTLET_NAME_RW : List Int := BASE_OID ++ [9, 2, 1, 1, 3]
def Q_OUTLET_COMMAND_RW : List Int := BASE_OID ++ [9, 2, 4, 1, 5]

/-- `APC.OUTLET_STATUS_TYPES`. -/
def OUTLET_STATUS_TYPES : List (List Char) := [[], "off".data, "on".data]

/-- The PDU as seen through `__get`: the static outlet count and the per
outlet status code and name the device answers with. -/
structure ApcDevice where
  numOutlets : Int
  statusOf : Int → Int
  nameOf : Int → List Char

/-- Python list indexing `l[i]`, including negative-index wrap-around;
out of range raises IndexError. -/
def pyListIx {α : Type} (l : List α) (i : Int) : Except PyErr α :=
  let j := if i < 0 then i + l.length else i
  if 0 ≤ j ∧ j < l.length then
    match l.get? j.toNat with
    | some v => .ok v
    | none => .error .indexError
  else .error .indexError

/-- `APC.outlet_status`: validate the outlet index, then one SNMP get and a
lookup in `OUTLET_STATUS_TYPES`. -/
def outlet_status (d : ApcDevice) (outlet : Int) :
    List SnmpEvent × Except PyErr (List Char) :=
  if 1 ≤ outlet ∧ outlet ≤ d.numOutlets then
    ([.getOid (Q_OUTLET_STATUS ++ [outlet])],
     pyListIx OUTLET_STATUS_TYPES (d.statusOf outlet))
  else ([], .error .indexError)

/-- `APC.get_outlet_name`. -/
def get_outlet_name (d : ApcDevice) (outlet : Int) :
    List SnmpEvent × Except PyErr (List Char) :=
  if 1 ≤ outlet ∧ outlet ≤ d.numOutlets then
    ([.getOid (Q_OUTLET_NAME ++ [outlet])], .ok (d.nameOf outlet))
  else ([], .error .indexError)

/-- `APC.set_outlet_name`.  The source's `if 1 <= outlet <= self._num_outlets`
branch performs the SNMP set (`__set` itself is a get followed by a set)
but contains no `return`, so control falls through to the unconditional
`raise IndexError` in every case. -/
def set_outlet_name (d : ApcDevice) (outlet : Int) (newName : List Char) :
    List SnmpEvent × Except PyErr Unit :=
  if 1 ≤ outlet ∧ outlet ≤ d.numOutlets then
    ([.getOid (Q_OUTLET_NAME_RW ++ [outlet]),
      .setOid (Q_OUTLET_NAME_RW ++ [outlet]) newName],
     .error .indexError)
  else ([], .error .indexError)

/-- `APC.outlet_command`: an unrecognized operation raises ValueError before
anything else; an out-of-range outlet raises IndexError before any
transport interaction; otherwise the command OID is set (`__set` = get
then set) and the bounded `__wait_for_state` poll runs.  Against this
static device model one status probe decides the poll: re-polling an
unchanged device returns the same answer, and poll exhaustion is reported
as `False` (the caught RetryError), never as an exception. -/
def outlet_command (d : ApcDevice) (outlet : Int) (operation : List Char) :
    List SnmpEvent × Except PyErr Bool :=
  if (["on".data, "off".data, "reboot".data].contains operation) = false then
    ([], .error .valueError)
  else if 1 ≤ outlet ∧ outlet ≤ d.numOutlets then
    let target := if operation = "off".data then "off".data else "on".data
    let probe := outlet_status d outlet
    let code : Int := if operation = "on".data then 1 else if operation = "off".data then 2 else 3
    ([.getOid (Q_OUTLET_COMMAND_RW ++ [outlet]),
      .setOid (Q_OUTLET_COMMAND_RW ++ [outlet]) (toString code).data]
       ++ probe.1,
     match probe.2 with
     | .error e => .error e
     | .ok st => .ok (st = target))
  else ([], .error .indexError)

/-- A concrete eight-outlet PDU whose outlets all report status code 2
(`"on"`). -/
def apcSample : ApcDevice :=
  { numOutlets := 8, statusOf := fun _ => 2, nameOf := fun _ => "outlet".data }

example : (outlet_status apcSample 1).2 = .ok "on".data := by decide
example : outlet_status apcSample 0 = ([], .error .indexError) := by decide
example : outlet_status apcSample 9 = ([], .error .indexError) := by decide
example : (set_outlet_name apcSample 3 "web server".data).2 = .error .indexError := by decide

/-!
Claim theorems.
-/

/-- C4 counterexample: the claim says the not-ready mutating operations
return `False`; `poe_on` (like `poe_off` and `change_vlan`) actually
executes a bare `return`, i.e. yields Python `None` (`none` here), which
is a different value from `False`. -/
theorem c4_counterexample :
    poe_on ⟨none, false, false⟩ (some "Gi1/0/1".data) = .ok (none, []) ∧
      (some false : Option Bool) ≠ (none : Option Bool) := by
  exact ⟨rfl, by decide⟩

/-- C4 (amended): every operation invoked while the session is not ready
(in particular while disconnected) returns its sentinel without raising:
`vlan` gives `-1`, `mac_address_table` and `ipdt` give `None`, `is_poe`
gives the string `"unknown"`, and the mutating `poe_on` / `poe_off` /
`change_vlan` give `None` (a falsy non-value, not the Boolean `False`);
none of them sends a command. -/
theorem c4_not_ready_sentinels :
    ∀ (s : SwitchState), s.ready = false →
      ∀ (port ign : Option (List Char)) (v : Int),
        vlan s port = .ok (-1, []) ∧
        mac_address_table s ign = .ok (none, []) ∧
        ipdt s = .ok (none, []) ∧
        is_poe s port = .ok (.unknownStr, []) ∧
        poe_on s port = .ok (none, []) ∧
        poe_off s port = .ok (none, []) ∧
        change_vlan s port v = .ok (none, []) := by
  intro s h port ign v
  refine ⟨?_, ?_, ?_, ?_, ?_, ?_, ?_⟩ <;>
    simp [vlan, mac_address_table, ipdt, is_poe, poe_on, poe_off, change_vlan, h]

/-- Witness for `c4_not_ready_sentinels` at the freshly-disconnected
state. -/
theorem c4_witness :
    vlan ⟨none, false, false⟩ (some "Gi1/0/1".data) = .ok (-1, []) ∧
    mac_address_table ⟨none, false, false⟩ none = .ok (none, []) ∧
    ipdt ⟨none, false, false⟩ = .ok (none, []) ∧
    is_poe ⟨none, false, false⟩ (some "Gi1/0/1".data) = .ok (.unknownStr, []) ∧
    poe_on ⟨none, false, false⟩ (some "Gi1/0/1".data) = .ok (none, []) ∧
    poe_off ⟨none, false, false⟩ (some "Gi1/0/1".data) = .ok (none, []) ∧
    change_vlan ⟨none, false, false⟩ (some "Gi1/0/1".data) 701 = .ok (none, []) :=
  c4_not_ready_sentinels ⟨none, false, false⟩ rfl (some "Gi1/0/1".data) none 701

/-- C8 counterexample: a session whose remote side has died (the shell's
`remoteAlive` is false) but whose local handle is still set reports
`connected = true`; the claim demands `false` for such a session. -/
theorem c8_counterexample :
    connected ⟨some ⟨false, fun _ => []⟩, false, true⟩ = true ∧
      (⟨false, fun _ => []⟩ : ShellConn).remoteAlive = false :=
  ⟨rfl, rfl⟩

/-- C8 (amended): `connected` is a pure check that the local transport
handle is non-null — `true` for every state holding a shell (whatever the
remote side's liveness or behaviour) and `false` exactly when the handle
is absent; it issues no command against the transport. -/
theorem c8_connected_handle_only :
    (∀ (sh : ShellConn) (en r : Bool), connected ⟨some sh, en, r⟩ = true) ∧
      (∀ (en r : Bool), connected ⟨none, en, r⟩ = false) :=
  ⟨fun _ _ _ => rfl, fun _ _ => rfl⟩

/-- C9 counterexample: after a successful `enable` the session is
privileged (`ready = true`), but because `_enable_needed` is never
cleared, a second `enable` sends the whole escalation sequence again —
it is not a no-op as the claim states. -/
theorem c9_counterexample :
    (enable ⟨some ⟨true, fun _ => []⟩, true, false⟩ "secret".data).state.ready = true ∧
      (enable ((enable ⟨some ⟨true, fun _ => []⟩, true, false⟩ "secret".data).state)
          "secret".data).sent = [CMD_ENABLE, "secret".data, CMD_TERMINAL_LENGTH] ∧
      [CMD_ENABLE, "secret".data, CMD_TERMINAL_LENGTH] ≠ ([] : List (List Char)) := by
  exact ⟨rfl, rfl, by decide⟩

/-- C9 (amended): `enable` is a no-op (no commands, state unchanged) exactly
when the session is not connected or no escalation is needed; when it is
connected and escalation is needed it always re-sends the escalation
sequence — even if already privileged, since `_enable_needed` is never
cleared — and the `ready` flag only ever moves from `false` to `true`
under `enable`, never backward. -/
theorem c9_enable_amended :
    (∀ (s : SwitchState) (pw : List Char), (connected s && s.enableNeeded) = false →
        enable s pw = ⟨(), [], s⟩) ∧
      (∀ (s : SwitchState) (pw : List Char), s.ready = true →
        (enable s pw).state.ready = true) ∧
      (∀ (s : SwitchState) (pw : List Char), (connected s && s.enableNeeded) = true →
        (enable s pw).sent = [CMD_ENABLE, pw, CMD_TERMINAL_LENGTH] ∧
          (enable s pw).state = { s with ready := true }) := by
  refine ⟨?_, ?_, ?_⟩
  · intro s pw h
    simp [enable, h]
  · intro s pw h
    by_cases hc : (connected s && s.enableNeeded) = true <;> simp [enable, hc, h]
  · intro s pw h
    simp [enable, h]

/-- Witness for `c9_enable_amended`: a disconnected session and an
already-ready session. -/
theorem c9_witness :
    enable ⟨none, true, false⟩ "secret".data = ⟨(), [], ⟨none, true, false⟩⟩ ∧
      (enable ⟨some ⟨true, fun _ => []⟩, true, true⟩ "secret".data).state.ready = true :=
  ⟨c9_enable_amended.1 ⟨none, true, false⟩ "secret".data rfl,
   c9_enable_amended.2.1 ⟨some ⟨true, fun _ => []⟩, true, true⟩ "secret".data rfl⟩

/-- C6 (code bug): out-of-range outlet indexes raise the validation
IndexError on all four outlet operations with no transport interaction,
and in-range indexes succeed on `outlet_status`, `get_outlet_name` and
`outlet_command` — but `set_outlet_name` is missing the `return` inside
its validated branch, so for a valid outlet it performs the SNMP set and
then still raises the same IndexError. -/
theorem c6_set_outlet_name_bug :
    outlet_status apcSample 0 = ([], .error .indexError) ∧
    outlet_status apcSample 9 = ([], .error .indexError) ∧
    get_outlet_name apcSample 0 = ([], .error .indexError) ∧
    set_outlet_name apcSample 0 "web server".data = ([], .error .indexError) ∧
    outlet_command apcSample 0 "on".data = ([], .error .indexError) ∧
    outlet_status apcSample 1 = ([.getOid (Q_OUTLET_STATUS ++ [1])], .ok "on".data) ∧
    outlet_status apcSample 8 = ([.getOid (Q_OUTLET_STATUS ++ [8])], .ok "on".data) ∧
    get_outlet_name apcSample 1 = ([.getOid (Q_OUTLET_NAME ++ [1])], .ok "outlet".data) ∧
    outlet_command apcSample 1 "on".data =
      ([.getOid (Q_OUTLET_COMMAND_RW ++ [1]), .setOid (Q_OUTLET_COMMAND_RW ++ [1]) "1".data,
        .getOid (Q_OUTLET_STATUS ++ [1])], .ok true) ∧
    set_outlet_name apcSample 1 "web server".data =
      ([.getOid (Q_OUTLET_NAME_RW ++ [1]), .setOid (Q_OUTLET_NAME_RW ++ [1]) "web server".data],
       .error .indexError) := by
  decide

/-- In `_verify_poe_status`, the returned `matches` flag always equals
`state in actual_state` — whether a row for the port was found (then
`matches = state in values[1]` and `actual_state = values[1]`) or not
(then `matches = False`, `actual_state = "unknown"`, and by hypothesis
`state` is not a substring of `"unknown"`). -/
theorem poeLoop_matched (port : Option (List Char)) (st0 : List Char)
    (h0 : pyInStr st0 "unknown".data = false) :
    ∀ (lines : List (List Char)) (m : Bool) (av : List Char),
      verifyPoeLoop port st0 lines = .ok (m, av) → m = pyInStr st0 av := by
  intro lines
  induction lines with
  | nil =>
    intro m av h
    unfold verifyPoeLoop at h
    injection h with h2
    cases h2
    exact h0.symm
  | cons line rest ih =>
    intro m av h
    unfold verifyPoeLoop at h
    split at h
    · exact ih m av h
    · split at h
      · exact absurd h (by simp)
      · split at h
        · split at h
          · exact absurd h (by simp)
          · injection h with h2
            cases h2
            rfl
        · exact ih m av h

/-- C1 (amended): `poe_on` returns `True` iff the admin-state field of the
first row for the normalized port in the re-queried power-status table
contains `"auto"` (with `False` and actual state `"unknown"` when no row
matches); `poe_off` returns `True` iff that field contains `"off"` — not
"does not contain auto" as claimed; and both methods, on a ready session,
reduce to `_verify_poe_status` applied to the fresh `sh power inline`
response, after sending their configuration command sequence. -/
theorem c1_poe_verify_amended :
    (∀ (out : List Char) (p : Option (List Char)) (m : Bool) (st : List Char),
        verify_poe_status out p "on".data = .ok (m, st) → m = pyInStr "auto".data st) ∧
    (∀ (out : List Char) (p : Option (List Char)) (m : Bool) (st : List Char),
        verify_poe_status out p "off".data = .ok (m, st) → m = pyInStr "off".data st) ∧
    (∀ (sh : ShellConn) (en : Bool) (port : Option (List Char)),
        poe_on ⟨some sh, en, true⟩ port =
          (match verify_poe_status (sh.respond CMD_POWER_SHOW) (shorthand_port port)
              "on".data with
           | .error e => .error e
           | .ok r => .ok (some r.1, poeCmds (shorthand_port port) CMD_POWER_ON)) ∧
        poe_off ⟨some sh, en, true⟩ port =
          (match verify_poe_status (sh.respond CMD_POWER_SHOW) (shorthand_port port)
              "off".data with
           | .error e => .error e
           | .ok r => .ok (some r.1, poeCmds (shorthand_port port) CMD_POWER_OFF))) := by
  refine ⟨?_, ?_, ?_⟩
  · intro out p m st h
    exact poeLoop_matched p "auto".data (by decide) (processedLines out) m st h
  · intro out p m st h
    exact poeLoop_matched p "off".data (by decide) (processedLines out) m st h
  · intro sh en port
    exact ⟨rfl, rfl⟩

/-- C1 counterexample: with admin state `static` (which contains neither
`"off"` nor `"auto"`), `poe_off` returns `False` although the claim —
"True iff the admin-state field does not contain auto" — demands `True`. -/
theorem c1_counterexample :
    poe_off ⟨some ⟨true, fun _ => poeStaticOutput⟩, false, true⟩ (some "Gi1/0/3".data) =
      .ok (some false, poeCmds (some "Gi1/0/3".data) CMD_POWER_OFF) ∧
    verify_poe_status poeStaticOutput (some "Gi1/0/3".data) "off".data =
      .ok (false, "static".data) ∧
    pyInStr "auto".data "static".data = false := by
  exact ⟨by decide, by decide, by decide⟩

/-- Witness for `c1_poe_verify_amended` on the concrete power-status
sample. -/
theorem c1_witness :
    (true = pyInStr "auto".data "auto".data) ∧ (false = pyInStr "off".data "auto".data) :=
  ⟨c1_poe_verify_amended.1 poeStaticOutput (some "Gi1/0/1".data) true "auto".data (by decide),
   c1_poe_verify_amended.2.1 poeStaticOutput (some "Gi1/0/1".data) false "auto".data (by decide)⟩

/-- C2: continuation-line ports are attributed to the most recently seen
carrier VLAN id — processing a line that survives the `/` filter, carries
no `active` token, and lists the port, sets `actual_vlan` to the current
`previous_vlan` (and `matches` when it equals the expected id) — and, on
the concrete VLAN-show text containing the carrier line
`701  NET-701  active  Gi1/0/1, Gi1/0/2`, the verification returns
`(True, 701)` for expected VLAN 701 and `(False, 701)` for expected
VLAN 1. -/
theorem c2_vlan_continuation :
    (∀ (port : List Char) (vlanE : Int) (st : VlanScanState) (rawLine : List Char),
        (pyReplace ",".data [] rawLine).contains '/' = true →
        "active".data ∉ pySplit (pyReplace ",".data [] rawLine) →
        port ∈ pySplit (pyReplace ",".data [] rawLine) →
        vlanLineStep (some port) vlanE st rawLine =
          .ok ⟨(if st.previousVlan = vlanE then true else st.matched),
               st.previousVlan, st.previousVlan⟩) ∧
      verify_vlan_status vlanSampleOutput (some "Gi1/0/1".data) 701 = .ok (true, 701) ∧
      verify_vlan_status vlanSampleOutput (some "Gi1/0/1".data) 1 = .ok (false, 701) := by
  refine ⟨?_, by decide, by decide⟩
  intro port vlanE st rawLine h1 h2 h3
  have h1b : '/' ∈ pyReplace ",".data [] rawLine := by simpa using h1
  simp [vlanLineStep, h1b, h2, vlanPortsCheck, portMem, h3]

/-- Witness for `c2_vlan_continuation`: a continuation line following a
carrier line for VLAN 704 is attributed to VLAN 704. -/
theorem c2_witness :
    vlanLineStep (some "Gi1/0/9".data) 704 ⟨false, 704, -1⟩ "Gi1/0/9, Gi1/0/10".data =
      .ok ⟨true, 704, 704⟩ := by
  have h := c2_vlan_continuation.1 "Gi1/0/9".data 704 ⟨false, 704, -1⟩
    "Gi1/0/9, Gi1/0/10".data (by decide) (by decide) (by decide)
  simpa using h

/-- Every entry produced by the IPDT loop comes from a processed line whose
token list has the entry's fields at positions 0, 1 and 3 (surfaced
verbatim) and whose state token (position 4) is not `INACTIVE`. -/
theorem parseIpdtLoop_origin :
    ∀ (lines : List (List Char)) (l : List IpdtEntry), parseIpdtLoop lines = .ok l →
      ∀ e ∈ l, ∃ line ∈ lines, ∃ v2 v4 vrest,
        pySplit line = e.ip :: e.mac :: v2 :: e.intf :: v4 :: vrest ∧
          v4 ≠ "INACTIVE".data := by
  intro lines
  induction lines with
  | nil =>
    intro l h e he
    unfold parseIpdtLoop at h
    injection h with h2
    rw [← h2] at he
    exact absurd he (by simp)
  | cons line rest ih =>
    intro l h e he
    unfold parseIpdtLoop at h
    split at h
    · obtain ⟨ln, hln, w⟩ := ih l h e he
      exact ⟨ln, List.mem_cons_of_mem _ hln, w⟩
    · split at h
      · rename_i v0 v1 v2 v3 v4 vrest hsplit
        split at h
        · obtain ⟨ln, hln, w⟩ := ih l h e he
          exact ⟨ln, List.mem_cons_of_mem _ hln, w⟩
        · rename_i hv4
          split at h
          · exact absurd h (by simp)
          · rename_i l2 hl2
            injection h with h2
            rw [← h2] at he
            rcases List.mem_cons.mp he with rfl | hmem
            · exact ⟨line, List.mem_cons_self _ _, v2, v4, vrest, hsplit, hv4⟩
            · obtain ⟨ln, hln, w⟩ := ih l2 hl2 e hmem
              exact ⟨ln, List.mem_cons_of_mem _ hln, w⟩
      · exact absurd h (by simp)

/-- Conversely, every processed line that contains a `.`, tokenizes to at
least five fields and is not in state `INACTIVE` contributes its entry to
the IPDT loop's result. -/
theorem parseIpdtLoop_complete :
    ∀ (lines : List (List Char)) (l : List IpdtEntry), parseIpdtLoop lines = .ok l →
      ∀ line ∈ lines, line.contains '.' = true →
        ∀ v0 v1 v2 v3 v4 vrest, pySplit line = v0 :: v1 :: v2 :: v3 :: v4 :: vrest →
          v4 ≠ "INACTIVE".data → (⟨v0, v1, v3⟩ : IpdtEntry) ∈ l := by
  intro lines
  induction lines with
  | nil =>
    intro l h line hline
    exact absurd hline (by simp)
  | cons hd rest ih =>
    intro l h line hline hdot v0 v1 v2 v3 v4 vrest hsplit hv4
    unfold parseIpdtLoop at h
    rcases List.mem_cons.mp hline with rfl | hmem
    · rw [if_neg (by rw [hdot]; simp)] at h
      rw [hsplit] at h
      simp only [if_neg hv4] at h
      split at h
      · exact absurd h (by simp)
      · rename_i l2 hl2
        injection h with h2
        rw [← h2]
        exact List.mem_cons_self _ _
    · split at h
      · exact ih l h line hmem hdot v0 v1 v2 v3 v4 vrest hsplit hv4
      · split at h
        · split at h
          · exact ih l h line hmem hdot v0 v1 v2 v3 v4 vrest hsplit hv4
          · split at h
            · exact absurd h (by simp)
            · rename_i l2 hl2
              injection h with h2
              rw [← h2]
              exact List.mem_cons_of_mem _
                (ih l2 hl2 line hmem hdot v0 v1 v2 v3 v4 vrest hsplit hv4)
        · exact absurd h (by simp)

/-- Every entry kept by the MAC-table loop has an interface field that
begins, case-insensitively, with one of the shorthand prefixes
(`Fa`/`Gi`/`Ten`) — that is what the source's `values[3].lower().find(...)`
filter enforces. -/
theorem parseMacLoop_prefixes :
    ∀ (lines : List (List Char)) (ign : Option (List Char)) (l : List MacEntry),
      parseMacLoop ign lines = .ok l →
      ∀ e ∈ l, (PORT_SHORTHANDS.map Prod.snd).any
          (fun pt => (pt.map Char.toLower).isPrefixOf (e.intf.map Char.toLower)) = true := by
  intro lines
  induction lines with
  | nil =>
    intro ign l h e he
    unfold parseMacLoop at h
    injection h with h2
    rw [← h2] at he
    exact absurd he (by simp)
  | cons line rest ih =>
    intro ign l h e he
    unfold parseMacLoop at h
    split at h
    · exact ih ign l h e he
    · split at h
      · rename_i v1 v3 hsplit
        split at h
        · exact ih ign l h e he
        · rename_i hall
          split at h
          · exact ih _ l h e he
          · split at h
            · exact absurd h (by simp)
            · rename_i l2 hl2
              injection h with h2
              rw [← h2] at he
              rcases List.mem_cons.mp he with rfl | hmem
              · simp only [List.all_eq_true, decide_eq_true_eq] at hall
                push_neg at hall
                obtain ⟨pt, hpt, hne⟩ := hall
                simp only [List.any_eq_true]
                exact ⟨pt, hpt, by simpa using hne⟩
              · exact ih _ l2 hl2 e hmem
      · exact absurd h (by simp)

/-- C3 (amended): every entry returned by the MAC-address-table parser has
an interface field beginning, case-insensitively, with one of the
shorthand prefixes `Fa`/`Gi`/`Ten`, but the field is surfaced exactly as
it appears in the raw text — no normalization is applied — and every
entry returned by the IP-device-tracking parser surfaces the fourth token
of its source line verbatim, with no prefix filtering or normalization at
all (so long-form names such as `GigabitEthernet1/0/14` do leak through
both parsers). -/
theorem c3_interface_surfacing_amended :
    (∀ (output : List Char) (ign : Option (List Char)) (l : List MacEntry),
        parse_mac_address_table_output output ign = .ok l →
        ∀ e ∈ l, (PORT_SHORTHANDS.map Prod.snd).any
            (fun pt => (pt.map Char.toLower).isPrefixOf (e.intf.map Char.toLower)) = true) ∧
      (∀ (output : List Char) (l : List IpdtEntry), parse_ipdt_output output = .ok l →
        ∀ e ∈ l, ∃ line ∈ processedLines output, ∃ v2 v4 vrest,
          pySplit line = e.ip :: e.mac :: v2 :: e.intf :: v4 :: vrest) := by
  constructor
  · intro output ign l h e he
    unfold parse_mac_address_table_output at h
    split at h
    · exact absurd h (by simp)
    · rename_i l0 hl0
      injection h with h2
      rw [← h2] at he
      exact parseMacLoop_prefixes (processedLines output) ign l0 hl0 e
        ((mem_insertionSort _ e l0).mp he)
  · intro output l h e he
    unfold parse_ipdt_output at h
    split at h
    · exact absurd h (by simp)
    · rename_i l0 hl0
      injection h with h2
      rw [← h2] at he
      obtain ⟨ln, hln, v2, v4, vrest, hw, _⟩ :=
        parseIpdtLoop_origin (processedLines output) l0 hl0 e
          ((mem_insertionSort _ e l0).mp he)
      exact ⟨ln, hln, v2, v4, vrest, hw⟩

/-- C3 counterexample: parsing the source docstring's own IPDT output
yields an entry whose interface field is the raw long-form name
`GigabitEthernet1/0/14`, not its shorthand `Gi1/0/14`. -/
theorem c3_counterexample :
    parse_ipdt_output ipdtLongOutput =
      .ok [{ ip := "192.168.1.12".data, mac := "6cec.eb68.c86f".data,
             intf := "GigabitEthernet1/0/14".data }] ∧
      shorthand_port (some "GigabitEthernet1/0/14".data) = some "Gi1/0/14".data ∧
      "GigabitEthernet1/0/14".data ≠ "Gi1/0/14".data := by
  exact ⟨by decide, by decide, by decide⟩

/-- Witness for `c3_interface_surfacing_amended` on a concrete MAC table
and the docstring IPDT output. -/
theorem c3_witness :
    ((PORT_SHORTHANDS.map Prod.snd).any
        (fun pt => (pt.map Char.toLower).isPrefixOf
          (({ mac := "000b.7866.5240".data, intf := "Gi1/0/48".data } : MacEntry).intf.map
            Char.toLower)) = true) ∧
      (∃ line ∈ processedLines ipdtLongOutput, ∃ v2 v4 vrest,
        pySplit line = "192.168.1.12".data :: "6cec.eb68.c86f".data :: v2 ::
          "GigabitEthernet1/0/14".data :: v4 :: vrest) :=
  ⟨c3_interface_surfacing_amended.1 macSampleOutput none
      [{ mac := "000b.7866.5240".data, intf := "Gi1/0/48".data }] (by decide)
      { mac := "000b.7866.5240".data, intf := "Gi1/0/48".data } (by decide),
   c3_interface_surfacing_amended.2 ipdtLongOutput
      [{ ip := "192.168.1.12".data, mac := "6cec.eb68.c86f".data,
         intf := "GigabitEthernet1/0/14".data }] (by decide)
      { ip := "192.168.1.12".data, mac := "6cec.eb68.c86f".data,
        intf := "GigabitEthernet1/0/14".data } (by decide)⟩

/-- C5 (amended): the IP-device-tracking parser drops exactly the rows whose
state field (fifth token) equals `INACTIVE`: every returned entry stems
from a row whose state token differs from `INACTIVE` (whether or not it
is `ACTIVE`), and conversely every dotted line with at least five tokens
and a state token other than `INACTIVE` yields its record. -/
theorem c5_ipdt_filter_amended :
    (∀ (output : List Char) (l : List IpdtEntry), parse_ipdt_output output = .ok l →
        ∀ e ∈ l, ∃ line ∈ processedLines output, ∃ v2 v4 vrest,
          pySplit line = e.ip :: e.mac :: v2 :: e.intf :: v4 :: vrest ∧
            v4 ≠ "INACTIVE".data) ∧
      (∀ (output : List Char) (l : List IpdtEntry), parse_ipdt_output output = .ok l →
        ∀ line ∈ processedLines output, line.contains '.' = true →
          ∀ v0 v1 v2 v3 v4 vrest, pySplit line = v0 :: v1 :: v2 :: v3 :: v4 :: vrest →
            v4 ≠ "INACTIVE".data → (⟨v0, v1, v3⟩ : IpdtEntry) ∈ l) := by
  constructor
  · intro output l h e he
    unfold parse_ipdt_output at h
    split at h
    · exact absurd h (by simp)
    · rename_i l0 hl0
      injection h with h2
      rw [← h2] at he
      exact parseIpdtLoop_origin (processedLines output) l0 hl0 e
        ((mem_insertionSort _ e l0).mp he)
  · intro output l h line hline hdot v0 v1 v2 v3 v4 vrest hsplit hv4
    unfold parse_ipdt_output at h
    split at h
    · exact absurd h (by simp)
    · rename_i l0 hl0
      injection h with h2
      rw [← h2]
      exact (mem_insertionSort _ _ l0).mpr
        (parseIpdtLoop_complete (processedLines output) l0 hl0 line hline hdot
          v0 v1 v2 v3 v4 vrest hsplit hv4)

/-- C5 counterexample: a row in state `STALE` — which is not `ACTIVE` — is
not excluded: it produces a record, refuting "only rows whose state field
equals ACTIVE produce records". -/
theorem c5_counterexample :
    parse_ipdt_output ipdtStaleOutput =
      .ok [{ ip := "10.0.0.5".data, mac := "aabb.ccdd.eeff".data, intf := "Gi1/0/7".data }] ∧
      pySplit "10.0.0.5     aabb.ccdd.eeff  601  Gi1/0/7  STALE".data =
        ["10.0.0.5".data, "aabb.ccdd.eeff".data, "601".data, "Gi1/0/7".data, "STALE".data] ∧
      "STALE".data ≠ "ACTIVE".data := by
  exact ⟨by decide, by decide, by decide⟩

/-- Witness for `c5_ipdt_filter_amended`: the `STALE` row of the concrete
sample yields its record. -/
theorem c5_witness :
    ({ ip := "10.0.0.5".data, mac := "aabb.ccdd.eeff".data, intf := "Gi1/0/7".data } :
        IpdtEntry) ∈
      [({ ip := "10.0.0.5".data, mac := "aabb.ccdd.eeff".data, intf := "Gi1/0/7".data } :
        IpdtEntry)] :=
  c5_ipdt_filter_amended.2 ipdtStaleOutput
    [{ ip := "10.0.0.5".data, mac := "aabb.ccdd.eeff".data, intf := "Gi1/0/7".data }]
    (by decide) "10.0.0.5     aabb.ccdd.eeff  601  Gi1/0/7  STALE".data (by decide) (by decide)
    "10.0.0.5".data "aabb.ccdd.eeff".data "601".data "Gi1/0/7".data "STALE".data []
    (by decide) (by decide)

/-- A character that is not a basic latin letter is fixed by
`Char.toLower`. -/
theorem toLower_eq_self {c : Char} (h : c.isAlpha = false) : c.toLower = c := by
  have hu : c.isUpper = false := by
    revert h
    unfold Char.isAlpha
    cases hx : c.isUpper <;> simp
  unfold Char.toLower
  rw [if_neg]
  intro hc
  rw [Char.isUpper] at hu
  simp only [Bool.and_eq_false_iff, decide_eq_false_iff_not, ge_iff_le, UInt32.le_def,
    BitVec.le_def] at hu
  obtain ⟨h1, h2⟩ := hc
  simp only [ge_iff_le, Char.toNat, UInt32.toNat] at h1 h2
  rcases hu with hu | hu
  · exact hu h1
  · exact hu h2

/-- Lowercasing fixes a string with no basic latin letters. -/
theorem map_toLower_fixed {s : List Char} (h : ∀ c ∈ s, c.isAlpha = false) :
    s.map Char.toLower = s := by
  induction s with
  | nil => rfl
  | cons c cs ih =>
    simp only [List.map_cons]
    rw [toLower_eq_self (h c (List.mem_cons_self c cs)),
      ih (fun x hx => h x (List.mem_cons_of_mem _ hx))]

theorem isPrefixOf_append_self : ∀ (l t : List Char), l.isPrefixOf (l ++ t) = true := by
  intro l t
  induction l with
  | nil => simp
  | cons a as ih => simp [List.isPrefixOf, ih]

/-- A pattern starting with a letter is never a prefix of a letter-free
string. -/
theorem isPrefixOf_alpha_head (d : Char) (ds : List Char) (hd : d.isAlpha = true) :
    ∀ (s : List Char), (∀ c ∈ s, c.isAlpha = false) → (d :: ds).isPrefixOf s = false := by
  intro s hs
  cases s with
  | nil => simp [List.isPrefixOf]
  | cons c cs =>
    have hne : d ≠ c := by
      intro he
      rw [he, hs c (List.mem_cons_self c cs)] at hd
      cases hd
    simp [List.isPrefixOf, hne]

/-- Distinct head characters rule out the prefix relation (also after
appending). -/
theorem isPrefixOf_head_ne (k1 k2 t : List Char) (a b : Char)
    (h1 : k1.head? = some a) (h2 : k2.head? = some b) (hne : a ≠ b) :
    k1.isPrefixOf (k2 ++ t) = false := by
  cases k1 with
  | nil => simp at h1
  | cons x xs =>
    cases k2 with
    | nil => simp at h2
    | cons y ys =>
      obtain rfl : x = a := by simpa using h1
      obtain rfl : y = b := by simpa using h2
      simp [List.cons_append, List.isPrefixOf, hne]

/-- `pyReplace`'s work loop leaves a letter-free string unchanged when the
pattern starts with a letter (there is no occurrence to replace). -/
theorem pyReplaceGo_id (d : Char) (ds repl : List Char) (hd : d.isAlpha = true) :
    ∀ (fuel : Nat) (s : List Char), (∀ c ∈ s, c.isAlpha = false) →
      pyReplaceGo (d :: ds) repl fuel s = s := by
  intro fuel
  induction fuel with
  | zero => intro s hs; cases s <;> rfl
  | succ n ih =>
    intro s hs
    cases s with
    | nil => rfl
    | cons c cs =>
      show pyReplaceGo (d :: ds) repl (n + 1) (c :: cs) = c :: cs
      rw [pyReplaceGo, if_neg, ih cs (fun x hx => hs x (List.mem_cons_of_mem _ hx))]
      intro hcon
      have hp := isPrefixOf_alpha_head d ds hd (c :: cs) hs
      rw [hp] at hcon
      exact absurd hcon.2 (by simp)

/-- Replacing a letter-headed pattern in `pattern ++ s`, with `s`
letter-free, rewrites exactly the leading occurrence. -/
theorem pyReplace_prefix_alpha (d : Char) (ds repl : List Char) (hd : d.isAlpha = true)
    (s : List Char) (hs : ∀ c ∈ s, c.isAlpha = false) :
    pyReplace (d :: ds) repl ((d :: ds) ++ s) = repl ++ s := by
  show pyReplaceGo (d :: ds) repl ((d :: ds) ++ s).length ((d :: ds) ++ s) = repl ++ s
  rw [List.cons_append, List.length_cons]
  rw [pyReplaceGo, if_pos]
  · have hdrop : (d :: (ds ++ s)).drop (d :: ds).length = s := by
      rw [← List.cons_append]
      exact List.drop_left _ _
    rw [hdrop, pyReplaceGo_id d ds repl hd _ s hs]
  · constructor
    · simp
    · rw [← List.cons_append]
      exact isPrefixOf_append_self _ _

/-- `_shorthand_port_notation` passes a non-empty name through unchanged
when no long-form key is a prefix of its lowercasing. -/
theorem shorthand_port_unmatched (s : List Char) (hne : s ≠ [])
    (h : ∀ item ∈ PORT_SHORTHANDS, item.1.isPrefixOf (s.map Char.toLower) = false) :
    shorthand_port (some s) = some s := by
  simp only [shorthand_port]
  rw [if_neg hne, if_neg]
  intro hany
  rw [List.any_eq_true] at hany
  obtain ⟨item, hitem, hpref⟩ := hany
  rw [h item hitem] at hpref
  cases hpref

/-- Normalization of a name with the `FastEthernet` long-form prefix and a
letter-free remainder. -/
theorem shorthand_port_matched_fast (p0 sfx : List Char)
    (hp0 : p0.map Char.toLower = "fastethernet".data)
    (hsuf : ∀ c ∈ sfx, c.isAlpha = false) :
    shorthand_port (some (p0 ++ sfx)) = some ("Fa".data ++ sfx) := by
  have hp0ne : p0 ≠ [] := by
    intro he
    rw [he] at hp0
    simp at hp0
  have hne : p0 ++ sfx ≠ [] := by simp [hp0ne]
  have hl : (p0 ++ sfx).map Char.toLower = "fastethernet".data ++ sfx := by
    rw [List.map_append, hp0, map_toLower_fixed hsuf]
  have hrepl : pyReplace "fastethernet".data "Fa".data ("fastethernet".data ++ sfx) =
      "Fa".data ++ sfx := by
    rw [show "fastethernet".data = 'f' :: "astethernet".data from rfl]
    exact pyReplace_prefix_alpha 'f' "astethernet".data "Fa".data (by decide) sfx hsuf
  have hloop : shorthandLoop ("fastethernet".data ++ sfx) PORT_SHORTHANDS =
      some ("Fa".data ++ sfx) := by
    simp only [PORT_SHORTHANDS, shorthandLoop]
    rw [if_pos (isPrefixOf_append_self _ _), hrepl]
  have hany : (PORT_SHORTHANDS.any
      (fun item => item.1.isPrefixOf (("fastethernet".data ++ sfx)))) = true := by
    apply List.any_eq_true.mpr
    exact ⟨("fastethernet".data, "Fa".data), by simp [PORT_SHORTHANDS],
      isPrefixOf_append_self _ _⟩
  simp only [shorthand_port, hl]
  rw [if_neg hne, if_pos hany, hloop]

/-- Normalization of a name with the `GigabitEthernet` long-form prefix. -/
theorem shorthand_port_matched_giga (p0 sfx : List Char)
    (hp0 : p0.map Char.toLower = "gigabitethernet".data)
    (hsuf : ∀ c ∈ sfx, c.isAlpha = false) :
    shorthand_port (some (p0 ++ sfx)) = some ("Gi".data ++ sfx) := by
  have hp0ne : p0 ≠ [] := by
    intro he
    rw [he] at hp0
    simp at hp0
  have hne : p0 ++ sfx ≠ [] := by simp [hp0ne]
  have hl : (p0 ++ sfx).map Char.toLower = "gigabitethernet".data ++ sfx := by
    rw [List.map_append, hp0, map_toLower_fixed hsuf]
  have hrepl : pyReplace "gigabitethernet".data "Gi".data ("gigabitethernet".data ++ sfx) =
      "Gi".data ++ sfx := by
    rw [show "gigabitethernet".data = 'g' :: "igabitethernet".data from rfl]
    exact pyReplace_prefix_alpha 'g' "igabitethernet".data "Gi".data (by decide) sfx hsuf
  have hloop : shorthandLoop ("gigabitethernet".data ++ sfx) PORT_SHORTHANDS =
      some ("Gi".data ++ sfx) := by
    simp only [PORT_SHORTHANDS, shorthandLoop]
    rw [if_neg, if_pos (isPrefixOf_append_self _ _), hrepl]
    rw [isPrefixOf_head_ne "fastethernet".data "gigabitethernet".data sfx 'f' 'g' rfl rfl
      (by decide)]
    simp
  have hany : (PORT_SHORTHANDS.any
      (fun item => item.1.isPrefixOf (("gigabitethernet".data ++ sfx)))) = true := by
    apply List.any_eq_true.mpr
    exact ⟨("gigabitethernet".data, "Gi".data), by simp [PORT_SHORTHANDS],
      isPrefixOf_append_self _ _⟩
  simp only [shorthand_port, hl]
  rw [if_neg hne, if_pos hany, hloop]

/-- Normalization of a name with the `TenGigabitEthernet` long-form
prefix. -/
theorem shorthand_port_matched_ten (p0 sfx : List Char)
    (hp0 : p0.map Char.toLower = "tengigabitethernet".data)
    (hsuf : ∀ c ∈ sfx, c.isAlpha = false) :
    shorthand_port (some (p0 ++ sfx)) = some ("Ten".data ++ sfx) := by
  have hp0ne : p0 ≠ [] := by
    intro he
    rw [he] at hp0
    simp at hp0
  have hne : p0 ++ sfx ≠ [] := by simp [hp0ne]
  have hl : (p0 ++ sfx).map Char.toLower = "tengigabitethernet".data ++ sfx := by
    rw [List.map_append, hp0, map_toLower_fixed hsuf]
  have hrepl : pyReplace "tengigabitethernet".data "Ten".data
      ("tengigabitethernet".data ++ sfx) = "Ten".data ++ sfx := by
    rw [show "tengigabitethernet".data = 't' :: "engigabitethernet".data from rfl]
    exact pyReplace_prefix_alpha 't' "engigabitethernet".data "Ten".data (by decide) sfx hsuf
  have hloop : shorthandLoop ("tengigabitethernet".data ++ sfx) PORT_SHORTHANDS =
      some ("Ten".data ++ sfx) := by
    simp only [PORT_SHORTHANDS, shorthandLoop]
    rw [if_neg, if_neg, if_pos (isPrefixOf_append_self _ _), hrepl]
    · rw [isPrefixOf_head_ne "gigabitethernet".data "tengigabitethernet".data sfx 'g' 't'
        rfl rfl (by decide)]
      simp
    · rw [isPrefixOf_head_ne "fastethernet".data "tengigabitethernet".data sfx 'f' 't'
        rfl rfl (by decide)]
      simp
  have hany : (PORT_SHORTHANDS.any
      (fun item => item.1.isPrefixOf (("tengigabitethernet".data ++ sfx)))) = true := by
    apply List.any_eq_true.mpr
    exact ⟨("tengigabitethernet".data, "Ten".data), by simp [PORT_SHORTHANDS],
      isPrefixOf_append_self _ _⟩
  simp only [shorthand_port, hl]
  rw [if_neg hne, if_pos hany, hloop]

/-- `Fa`-prefixed shorthand names with a letter-free remainder are fixed
points of the normalizer. -/
theorem shorthand_port_fixed_fa (sfx : List Char) (hsuf : ∀ c ∈ sfx, c.isAlpha = false) :
    shorthand_port (some ("Fa".data ++ sfx)) = some ("Fa".data ++ sfx) := by
  have hl : ("Fa".data ++ sfx).map Char.toLower = "fa".data ++ sfx := by
    rw [List.map_append, map_toLower_fixed hsuf,
      show "Fa".data.map Char.toLower = "fa".data from by decide]
  apply shorthand_port_unmatched
  · simp
  · intro item hitem
    rw [hl]
    simp only [PORT_SHORTHANDS, List.mem_cons, List.not_mem_nil, or_false] at hitem
    rcases hitem with rfl | rfl | rfl
    · show ('f' :: 'a' :: 's' :: "tethernet".data).isPrefixOf ("fa".data ++ sfx) = false
      rw [show "fa".data ++ sfx = 'f' :: 'a' :: sfx from rfl]
      simp only [List.isPrefixOf, beq_self_eq_true, Bool.true_and]
      exact isPrefixOf_alpha_head 's' "tethernet".data (by decide) sfx hsuf
    · exact isPrefixOf_head_ne "gigabitethernet".data "fa".data sfx 'g' 'f' rfl rfl (by decide)
    · exact isPrefixOf_head_ne "tengigabitethernet".data "fa".data sfx 't' 'f' rfl rfl
        (by decide)

/-- `Gi`-prefixed shorthand names with a letter-free remainder are fixed
points of the normalizer. -/
theorem shorthand_port_fixed_gi (sfx : List Char) (hsuf : ∀ c ∈ sfx, c.isAlpha = false) :
    shorthand_port (some ("Gi".data ++ sfx)) = some ("Gi".data ++ sfx) := by
  have hl : ("Gi".data ++ sfx).map Char.toLower = "gi".data ++ sfx := by
    rw [List.map_append, map_toLower_fixed hsuf,
      show "Gi".data.map Char.toLower = "gi".data from by decide]
  apply shorthand_port_unmatched
  · simp
  · intro item hitem
    rw [hl]
    simp only [PORT_SHORTHANDS, List.mem_cons, List.not_mem_nil, or_false] at hitem
    rcases hitem with rfl | rfl | rfl
    · exact isPrefixOf_head_ne "fastethernet".data "gi".data sfx 'f' 'g' rfl rfl (by decide)
    · show ('g' :: 'i' :: 'g' :: "abitethernet".data).isPrefixOf ("gi".data ++ sfx) = false
      rw [show "gi".data ++ sfx = 'g' :: 'i' :: sfx from rfl]
      simp only [List.isPrefixOf, beq_self_eq_true, Bool.true_and]
      exact isPrefixOf_alpha_head 'g' "abitethernet".data (by decide) sfx hsuf
    · exact isPrefixOf_head_ne "tengigabitethernet".data "gi".data sfx 't' 'g' rfl rfl
        (by decide)

/-- `Ten`-prefixed shorthand names with a letter-free remainder are fixed
points of the normalizer. -/
theorem shorthand_port_fixed_ten (sfx : List Char) (hsuf : ∀ c ∈ sfx, c.isAlpha = false) :
    shorthand_port (some ("Ten".data ++ sfx)) = some ("Ten".data ++ sfx) := by
  have hl : ("Ten".data ++ sfx).map Char.toLower = "ten".data ++ sfx := by
    rw [List.map_append, map_toLower_fixed hsuf,
      show "Ten".data.map Char.toLower = "ten".data from by decide]
  apply shorthand_port_unmatched
  · simp
  · intro item hitem
    rw [hl]
    simp only [PORT_SHORTHANDS, List.mem_cons, List.not_mem_nil, or_false] at hitem
    rcases hitem with rfl | rfl | rfl
    · exact isPrefixOf_head_ne "fastethernet".data "ten".data sfx 'f' 't' rfl rfl (by decide)
    · exact isPrefixOf_head_ne "gigabitethernet".data "ten".data sfx 'g' 't' rfl rfl
        (by decide)
    · show ('t' :: 'e' :: 'n' :: 'g' :: "igabitethernet".data).isPrefixOf
          ("ten".data ++ sfx) = false
      rw [show "ten".data ++ sfx = 't' :: 'e' :: 'n' :: sfx from rfl]
      simp only [List.isPrefixOf, beq_self_eq_true, Bool.true_and]
      exact isPrefixOf_alpha_head 'g' "igabitethernet".data (by decide) sfx hsuf

/-- C7: for every long-form interface name in the fixed enumeration — a
(case-insensitive) long-form prefix followed by a letter-free interface
number — normalization produces the shorthand name and is idempotent;
non-empty names matching no long-form prefix pass through unchanged; and
absent (`None`) or empty input maps to the absent output, never an
error. -/
theorem c7_normalizer :
    (∀ pre rep, (pre, rep) ∈ PORT_SHORTHANDS →
      ∀ p0 sfx, p0.map Char.toLower = pre → (∀ c ∈ sfx, c.isAlpha = false) →
        shorthand_port (some (p0 ++ sfx)) = some (rep ++ sfx) ∧
          shorthand_port (shorthand_port (some (p0 ++ sfx))) =
            shorthand_port (some (p0 ++ sfx))) ∧
      (∀ s, s ≠ [] →
        (∀ item ∈ PORT_SHORTHANDS, item.1.isPrefixOf (s.map Char.toLower) = false) →
          shorthand_port (some s) = some s) ∧
      shorthand_port none = none ∧ shorthand_port (some []) = none := by
  refine ⟨?_, shorthand_port_unmatched, rfl, rfl⟩
  intro pre rep hmem p0 sfx hp0 hsuf
  simp only [PORT_SHORTHANDS, List.mem_cons, List.not_mem_nil, or_false,
    Prod.mk.injEq] at hmem
  rcases hmem with ⟨rfl, rfl⟩ | ⟨rfl, rfl⟩ | ⟨rfl, rfl⟩
  · have h1 := shorthand_port_matched_fast p0 sfx hp0 hsuf
    refine ⟨h1, ?_⟩
    rw [h1]
    exact shorthand_port_fixed_fa sfx hsuf
  · have h1 := shorthand_port_matched_giga p0 sfx hp0 hsuf
    refine ⟨h1, ?_⟩
    rw [h1]
    exact shorthand_port_fixed_gi sfx hsuf
  · have h1 := shorthand_port_matched_ten p0 sfx hp0 hsuf
    refine ⟨h1, ?_⟩
    rw [h1]
    exact shorthand_port_fixed_ten sfx hsuf

/-- Witness for `c7_normalizer` at `GigabitEthernet1/0/1` and the
unrecognized name `Port-channel1`. -/
theorem c7_witness :
    (shorthand_port (some "GigabitEthernet1/0/1".data) = some "Gi1/0/1".data ∧
      shorthand_port (shorthand_port (some "GigabitEthernet1/0/1".data)) =
        shorthand_port (some "GigabitEthernet1/0/1".data)) ∧
      shorthand_port (some "Port-channel1".data) = some "Port-channel1".data :=
  ⟨c7_normalizer.1 "gigabitethernet".data "Gi".data (by decide) "GigabitEthernet".data
      "1/0/1".data (by decide) (by decide),
   c7_normalizer.2.1 "Port-channel1".data (by decide) (by decide)⟩

/-- Specification-level single pass over the VLAN-show lines: collect, in
text order, the VLAN id attributed to each occurrence of `port` (the
`previous_vlan` current at that line), together with the final
`previous_vlan`; error behaviour matches the implementation loop. -/
def vlanSpecScan (port : Option (List Char)) :
    List (List Char) → Int → Except PyErr (List Int × Int)
  | [], prev => .ok ([], prev)
  | rawLine :: rest, prev =>
    if (pyReplace ",".data [] rawLine).contains '/' = false then vlanSpecScan port rest prev
    else
      if "active".data ∈ pySplit (pyReplace ",".data [] rawLine) then
        match pySplit (pyReplace ",".data [] rawLine) with
        | [] => .error .indexError
        | v0 :: _ =>
          match pyInt v0 with
          | none => .error .valueError
          | some n =>
            match vlanSpecScan port rest n with
            | .error e => .error e
            | .ok r =>
              .ok ((if portMem port ((pySplit (pyReplace ",".data [] rawLine)).drop 3) then
                n :: r.1 else r.1), r.2)
      else
        match vlanSpecScan port rest prev with
        | .error e => .error e
        | .ok r =>
          .ok ((if portMem port (pySplit (pyReplace ",".data [] rawLine)) then
            prev :: r.1 else r.1), r.2)

theorem getLastD_cons (n : Int) (l : List Int) (d : Int) :
    ((n :: l).getLast?).getD d = (l.getLast?).getD n := by
  cases l with
  | nil => rfl
  | cons b t =>
    rw [List.getLast?_cons_cons,
      List.getLast?_eq_getLast (b :: t) (by simp)]
    rfl

/-- State algebra for prepending an occurrence to the collected list. -/
theorem spec_state_cons (m : Bool) (a p n vlanE : Int) (r1 : List Int) :
    (VlanScanState.mk ((if n = vlanE then true else m) || r1.contains vlanE) p
        ((r1.getLast?).getD n)) =
      ⟨m || (n :: r1).contains vlanE, p, (((n :: r1).getLast?).getD a)⟩ := by
  rw [getLastD_cons]
  have hm : ((if n = vlanE then true else m) || r1.contains vlanE) =
      (m || (n :: r1).contains vlanE) := by
    by_cases h : n = vlanE
    · subst h
      simp [List.contains_cons]
    · simp [List.contains_cons, h, Ne.symm h]
  rw [hm]

/-- The implementation loop of `_verify_vlan_status` is the specification
scan: starting from state `st`, the final `matches` flag is `st.matched`
or-ed with "the expected VLAN occurs among the ids attributed to the
port", and the final `actual_vlan` is the id attributed to the last
occurrence (defaulting to `st.actualVlan` when the port never occurs). -/
theorem vlanScan_spec (port : Option (List Char)) (vlanE : Int) :
    ∀ (lines : List (List Char)) (st : VlanScanState),
      vlanScanLoop port vlanE lines st =
        (match vlanSpecScan port lines st.previousVlan with
         | .error e => .error e
         | .ok r => .ok ⟨st.matched || r.1.contains vlanE, r.2,
             (r.1.getLast?).getD st.actualVlan⟩) := by
  intro lines
  induction lines with
  | nil =>
    intro st
    simp [vlanScanLoop, vlanSpecScan]
  | cons rawLine rest ih =>
    intro st
    by_cases hc : (pyReplace ",".data [] rawLine).contains '/' = false
    · have hstep : vlanLineStep port vlanE st rawLine = .ok st := by
        simp only [vlanLineStep]
        rw [if_pos hc]
      have hspec : vlanSpecScan port (rawLine :: rest) st.previousVlan =
          vlanSpecScan port rest st.previousVlan := by
        simp only [vlanSpecScan]
        rw [if_pos hc]
      rw [vlanScanLoop, hstep, hspec]
      exact ih st
    · by_cases ha : "active".data ∈ pySplit (pyReplace ",".data [] rawLine)
      · cases hv : pySplit (pyReplace ",".data [] rawLine) with
        | nil => exact absurd (hv ▸ ha) (by simp)
        | cons v0 vr =>
          cases hi : pyInt v0 with
          | none =>
            have hstep : vlanLineStep port vlanE st rawLine = .error .valueError := by
              simp only [vlanLineStep]
              rw [if_neg hc, if_pos ha, hv]
              simp only []
              rw [hi]
            have hspec : vlanSpecScan port (rawLine :: rest) st.previousVlan =
                .error .valueError := by
              simp only [vlanSpecScan]
              rw [if_neg hc, if_pos ha, hv]
              simp only []
              rw [hi]
            rw [vlanScanLoop, hstep, hspec]
          | some n =>
            by_cases hpm : portMem port ((v0 :: vr).drop 3) = true
            · have hstep : vlanLineStep port vlanE st rawLine =
                  .ok ⟨(if n = vlanE then true else st.matched), n, n⟩ := by
                simp only [vlanLineStep]
                rw [if_neg hc, if_pos ha, hv]
                simp only []
                rw [hi]
                simp only [vlanPortsCheck]
                rw [if_pos hpm]
              have hpm2 : portMem port (vr.drop 2) = true := by simpa using hpm
              have hspec : vlanSpecScan port (rawLine :: rest) st.previousVlan =
                  (match vlanSpecScan port rest n with
                   | .error e => .error e
                   | .ok r => .ok (n :: r.1, r.2)) := by
                simp only [vlanSpecScan]
                rw [if_neg hc, if_pos ha, hv]
                simp only []
                rw [hi]
                simp [hpm2]
              rw [vlanScanLoop, hstep, hspec]
              show vlanScanLoop port vlanE rest
                ⟨(if n = vlanE then true else st.matched), n, n⟩ = _
              rw [ih ⟨(if n = vlanE then true else st.matched), n, n⟩]
              simp only []
              cases hr : vlanSpecScan port rest n with
              | error e => rfl
              | ok r =>
                show Except.ok _ = Except.ok _
                rw [spec_state_cons st.matched st.actualVlan r.2 n vlanE r.1]
            · have hstep : vlanLineStep port vlanE st rawLine =
                  .ok ⟨st.matched, n, st.actualVlan⟩ := by
                simp only [vlanLineStep]
                rw [if_neg hc, if_pos ha, hv]
                simp only []
                rw [hi]
                simp only [vlanPortsCheck]
                rw [if_neg hpm]
              have hpm2 : portMem port (vr.drop 2) = false := by
                simpa using hpm
              have hspec : vlanSpecScan port (rawLine :: rest) st.previousVlan =
                  (match vlanSpecScan port rest n with
                   | .error e => .error e
                   | .ok r => .ok (r.1, r.2)) := by
                simp only [vlanSpecScan]
                rw [if_neg hc, if_pos ha, hv]
                simp only []
                rw [hi]
                simp [hpm2]
              rw [vlanScanLoop, hstep, hspec]
              show vlanScanLoop port vlanE rest ⟨st.matched, n, st.actualVlan⟩ = _
              rw [ih ⟨st.matched, n, st.actualVlan⟩]
              simp only []
              cases hr : vlanSpecScan port rest n with
              | error e => rfl
              | ok r => rfl
      · by_cases hpm : portMem port (pySplit (pyReplace ",".data [] rawLine)) = true
        · have hstep : vlanLineStep port vlanE st rawLine =
              .ok ⟨(if st.previousVlan = vlanE then true else st.matched),
                st.previousVlan, st.previousVlan⟩ := by
            simp only [vlanLineStep]
            rw [if_neg hc, if_neg ha]
            simp only [vlanPortsCheck]
            rw [if_pos hpm]
          have hspec : vlanSpecScan port (rawLine :: rest) st.previousVlan =
              (match vlanSpecScan port rest st.previousVlan with
               | .error e => .error e
               | .ok r => .ok (st.previousVlan :: r.1, r.2)) := by
            simp only [vlanSpecScan]
            rw [if_neg hc, if_neg ha]
            simp [hpm]
          rw [vlanScanLoop, hstep, hspec]
          show vlanScanLoop port vlanE rest
            ⟨(if st.previousVlan = vlanE then true else st.matched),
              st.previousVlan, st.previousVlan⟩ = _
          rw [ih ⟨(if st.previousVlan = vlanE then true else st.matched),
            st.previousVlan, st.previousVlan⟩]
          simp only []
          cases hr : vlanSpecScan port rest st.previousVlan with
          | error e => rfl
          | ok r =>
            show Except.ok _ = Except.ok _
            rw [spec_state_cons st.matched st.actualVlan r.2 st.previousVlan vlanE r.1]
        · have hstep : vlanLineStep port vlanE st rawLine = .ok st := by
            simp only [vlanLineStep]
            rw [if_neg hc, if_neg ha]
            simp only [vlanPortsCheck]
            rw [if_neg hpm]
          have hspec : vlanSpecScan port (rawLine :: rest) st.previousVlan =
              (match vlanSpecScan port rest st.previousVlan with
               | .error e => .error e
               | .ok r => .ok (r.1, r.2)) := by
            simp only [vlanSpecScan]
            rw [if_neg hc, if_neg ha]
            simp [hpm]
          rw [vlanScanLoop, hstep, hspec]
          show vlanScanLoop port vlanE rest st = _
          rw [ih st]
          cases hr : vlanSpecScan port rest st.previousVlan with
          | error e => rfl
          | ok r => rfl

/-- C10: the VLAN verification scan does not stop at the first line naming
the queried port: whenever `_verify_vlan_status` returns, its `matches`
flag is true exactly when the expected VLAN id occurs among the ids
attributed (in text order) to the port's occurrences, while the returned
actual VLAN id is the one attributed to the last occurrence — so on a
text listing `Gi1/0/5` under VLAN 701 and later under VLAN 702, the call
with expected id 701 returns `(True, 702)` with `702 ≠ 701`. -/
theorem c10_vlan_scan_characterization :
    (∀ (output : List Char) (port : Option (List Char)) (vlanE : Int) (m : Bool) (a : Int),
        verify_vlan_status output port vlanE = .ok (m, a) →
        ∃ occ p2, vlanSpecScan port (processedLines output) (-1) = .ok (occ, p2) ∧
          m = occ.contains vlanE ∧ a = (occ.getLast?).getD (-1)) ∧
      verify_vlan_status vlanDualOutput (some "Gi1/0/5".data) 701 = .ok (true, 702) ∧
      (702 : Int) ≠ 701 := by
  refine ⟨?_, by decide, by decide⟩
  intro output port vlanE m a h
  unfold verify_vlan_status at h
  rw [vlanScan_spec port vlanE (processedLines output) ⟨false, -1, -1⟩] at h
  cases hs : vlanSpecScan port (processedLines output) (-1) with
  | error e =>
    rw [hs] at h
    exact absurd h (by simp)
  | ok r =>
    obtain ⟨occ, p2⟩ := r
    rw [hs] at h
    simp only [Bool.false_or] at h
    injection h with h2
    refine ⟨occ, p2, rfl, ?_, ?_⟩
    · exact (congrArg Prod.fst h2).symm
    · exact (congrArg Prod.snd h2).symm

/-- Witness for `c10_vlan_scan_characterization` on the double-occurrence
sample. -/
theorem c10_witness :
    ∃ occ p2, vlanSpecScan (some "Gi1/0/5".data) (processedLines vlanDualOutput) (-1) =
        .ok (occ, p2) ∧ true = occ.contains 701 ∧ (702 : Int) = (occ.getLast?).getD (-1) :=
  c10_vlan_scan_characterization.1 vlanDualOutput (some "Gi1/0/5".data) 701 true 702
    (by decide)
